import Mathlib

/-!
# Verification of the asynchronous bulk document indexer and the
# solarwinds APM settings extension configuration

This file embeds, as executable Lean definitions, the parts of the
repository that the verified properties speak about:

* the asynchronous bulk indexer (worker buffer, size/interval/close flush
  triggers, per-item result classification, stats counters).  The
  implementation of this subsystem is not among the provided source files
  (only its tests `TestAsyncBulkIndexer_*` and its exporter callers are),
  so these definitions are modelled from the design spec, section by
  section, as indicated in each doc comment;
* `Config.Validate` of the solarwinds APM settings extension and
  `validateSolarwindsApmSettingsExtensionConfiguration`, embedded directly
  from the Go source, together with faithful models of the Go library
  functions they call (`strings.Split`, `regexp.MatchString` for the one
  fixed pattern, `strconv.Atoi`, `time.ParseDuration`).
-/

namespace BulkIndexer

/-- A document admitted into the indexer: an opaque serialized body plus a
target index/collection name.  (Spec section 3: Document.) -/
structure Doc where
  index : String
  body : String
deriving Repr, DecidableEq

/-- Modelled from the spec: the serialized length of one (action-header,
body) pair accounted by the batch buffer, abstracted as the lengths of the
index name and the body (spec section 3: size_bytes is the sum of
serialized lengths). -/
def Doc.bytes (d : Doc) : Nat :=
  d.index.length + d.body.length

/-- Total serialized size of a buffer content, in append order. -/
def bufBytes (docs : List Doc) : Nat :=
  (docs.map Doc.bytes).sum

/-- Classification of one per-item outcome (spec section 4.3). -/
inductive ItemOutcome where
  | success
  | retry
  | benign
  | permanentFailure
deriving Repr, DecidableEq

/-- One per-item result returned by the remote bulk endpoint: an HTTP-like
status code and the optional error type of the error body. -/
structure ItemResult where
  status : Nat
  errorType : Option String
deriving Repr, DecidableEq

/-- Modelled from the spec: the known-benign error types (spec section 4.3:
a document-already-exists / version-conflict condition on a create-only
operation; the test exercises `version_conflict_engine_exception`). -/
def knownBenignType (t : String) : Bool :=
  t == "version_conflict_engine_exception"

/-- Whether the optional error body of an item carries a known benign
error type. -/
def benignError : Option String → Bool
  | some t => knownBenignType t
  | none => false

/-- Modelled from the spec: the Item Result Classifier (spec section 4.3),
a pure function from one per-item outcome to an action.  2xx is success;
429 is retry-class; 400 with a known benign error type is the benign
condition; every other status is a permanent failure. -/
def classifyItem (r : ItemResult) : ItemOutcome :=
  if 200 ≤ r.status ∧ r.status ≤ 299 then .success
  else if r.status = 429 then .retry
  else if r.status = 400 ∧ benignError r.errorType = true then .benign
  else .permanentFailure

/-- One log record emitted during a flush: either the single batch-level
record of a transport failure, or a per-item record carrying the item
status and whether a remediation hint is attached (the hint accompanies
benign conditions; spec sections 4.3 and 7). -/
inductive LogRecord where
  | flushError (msg : String)
  | itemError (status : Nat) (hint : Bool)
deriving Repr, DecidableEq

/-- Modelled from the spec: the log record, if any, emitted for one
classified item (spec section 4.3: retry and permanent failures are logged
with the offending item, benign conditions are logged at a distinguishing
level with a remediation hint, successes are not logged). -/
def itemLog (r : ItemResult) : Option LogRecord :=
  match classifyItem r with
  | .success => none
  | .retry => some (.itemError r.status false)
  | .benign => some (.itemError r.status true)
  | .permanentFailure => some (.itemError r.status false)

/-- The counter deltas produced by interpreting one flush response
(spec sections 3 and 8: indexed, retried, failed, with benign conditions
counted separately). -/
structure FlushCounts where
  indexed : Nat
  retried : Nat
  benign : Nat
  failed : Nat
deriving Repr, DecidableEq

/-- Counting each classification outcome over a per-item response list. -/
def classifyCounts (items : List ItemResult) : FlushCounts where
  indexed := items.countP (fun r => classifyItem r = .success)
  retried := items.countP (fun r => classifyItem r = .retry)
  benign := items.countP (fun r => classifyItem r = .benign)
  failed := items.countP (fun r => classifyItem r = .permanentFailure)

/-- The observable outcome of one flush: counter deltas plus the emitted
log records. -/
structure FlushOutcome where
  counts : FlushCounts
  logs : List LogRecord
deriving Repr, DecidableEq

/-- Modelled from the spec: interpreting the transport response of one
flush of `docCount` documents (spec sections 4.3 and 7).  A transport-level
failure that prevents a per-item response from being parsed is treated as
if every item of the batch failed with retry-class semantics and is logged
once at batch granularity; otherwise each per-item result is classified
and logged individually. -/
def flushResult (docCount : Nat) : Except String (List ItemResult) → FlushOutcome
  | .error e =>
    { counts := { indexed := 0, retried := docCount, benign := 0, failed := 0 }
      logs := [.flushError e] }
  | .ok items =>
    { counts := classifyCounts items
      logs := items.filterMap itemLog }

/-- The error conditions `Session.Add` can fail with that the model covers
(spec section 4.4).  Calls in the verified scenarios are made with a live
context and well-formed documents, so `Cancelled` and `SerializationError`
do not arise and only the `Closed` condition is modelled. -/
inductive AddError where
  | closed
deriving Repr, DecidableEq

/-- Modelled from the spec: the observable state of one flush worker of
the async bulk indexer (spec sections 3, 4.2 and 4.5): its single batch
buffer in append order, the sequence of batches submitted to the remote
endpoint so far, whether the interval timer is still running, and whether
shutdown has begun. -/
structure IndexerState where
  buffer : List Doc
  flushed : List (List Doc)
  timerActive : Bool
  closed : Bool
deriving Repr, DecidableEq

/-- The state of a freshly constructed indexer: empty buffer, nothing
submitted, interval timer running, not closed. -/
def initIndexer : IndexerState where
  buffer := []
  flushed := []
  timerActive := true
  closed := false

/-- Modelled from the spec: `Session.Add` (spec sections 4.1, 4.2, 4.4).
Fails with `Closed` without touching the buffer when shutdown has begun;
otherwise the framed document is appended to the buffer, and if the
buffer size has reached or crossed `maxBytes` the size-triggered flush
submits the whole buffer (the document included) and resets the buffer.
A document larger than `maxBytes` on its own is still appended and then
flushed as a batch of one, never rejected for size. -/
def IndexerState.add (maxBytes : Nat) (s : IndexerState) (d : Doc) :
    Option AddError × IndexerState :=
  if s.closed then (some .closed, s)
  else
    let buf := s.buffer ++ [d]
    if maxBytes ≤ bufBytes buf then
      (none, { s with buffer := [], flushed := s.flushed ++ [buf] })
    else
      (none, { s with buffer := buf })

/-- Modelled from the spec: one tick of the shared interval timer (spec
sections 4.2 and 8, P3).  If the timer is still running and the worker's
buffer is non-empty, the buffer is flushed regardless of size; an empty
buffer or a stopped timer leaves the state unchanged. -/
def IndexerState.tick (s : IndexerState) : IndexerState :=
  if s.timerActive = true ∧ s.buffer ≠ [] then
    { s with buffer := [], flushed := s.flushed ++ [s.buffer] }
  else s

/-- Modelled from the spec: `Close` (spec section 4.5).  Stops the
interval timer, marks shutdown as begun so later `Add` calls fail fast,
and performs the final drain flush of whatever remains in the buffer,
even below threshold; an empty buffer is not submitted. -/
def IndexerState.close (s : IndexerState) : IndexerState :=
  if s.buffer = [] then
    { s with timerActive := false, closed := true }
  else
    { buffer := []
      flushed := s.flushed ++ [s.buffer]
      timerActive := false
      closed := true }

/-- Running a sequence of `Session.Add` calls against one worker, each
append feeding the next state (errors carry no state change, so only the
state component is threaded). -/
def runAdds (maxBytes : Nat) (s : IndexerState) : List Doc → IndexerState
  | [] => s
  | d :: ds => runAdds maxBytes (s.add maxBytes d).2 ds

end BulkIndexer

namespace SolarwindsApmSettings

/-! Models of the Go standard-library functions the extension calls. -/

end SolarwindsApmSettings

namespace BulkIndexer

/-- Flush counts restated as counts of each classification outcome. -/
theorem classifyCounts_def (items : List ItemResult) :
    classifyCounts items =
      { indexed := items.countP (fun r => classifyItem r = .success)
        retried := items.countP (fun r => classifyItem r = .retry)
        benign := items.countP (fun r => classifyItem r = .benign)
        failed := items.countP (fun r => classifyItem r = .permanentFailure) } :=
  rfl

end BulkIndexer

/-- C1: for every flush whose per-item response contains one item with
status 201, one with status 429, one with status 400 carrying a known
benign error type, and one with status 500, the classification of that
single flush response yields indexed = 1, retried = 1, benign = 1,
failed = 1. -/
theorem flush_classification_counts (dc : Nat) (items : List BulkIndexer.ItemResult)
    (h : items.Perm [⟨201, none⟩, ⟨429, none⟩,
      ⟨400, some "version_conflict_engine_exception"⟩, ⟨500, none⟩]) :
    (BulkIndexer.flushResult dc (.ok items)).counts =
      { indexed := 1, retried := 1, benign := 1, failed := 1 } := by
  show BulkIndexer.classifyCounts items = _
  rw [BulkIndexer.classifyCounts_def]
  rw [h.countP_eq, h.countP_eq, h.countP_eq, h.countP_eq]
  decide

/-- Witness for C1 at the concrete four-item response of the flush-error
test. -/
theorem flush_classification_counts_witness :
    (BulkIndexer.flushResult 4 (.ok [⟨201, none⟩, ⟨429, none⟩,
      ⟨400, some "version_conflict_engine_exception"⟩, ⟨500, none⟩])).counts =
      { indexed := 1, retried := 1, benign := 1, failed := 1 } :=
  flush_classification_counts 4 _ (List.Perm.refl _)

/-- C5: a transport-level failure of the whole flush is classified with
retry semantics for every document of the batch — the retried counter
grows by the document count and the indexed counter not at all — and
exactly one batch-granularity log record is emitted. -/
theorem flush_transport_error (dc : Nat) (e : String) :
    (BulkIndexer.flushResult dc (.error e)).counts.retried = dc ∧
    (BulkIndexer.flushResult dc (.error e)).counts.indexed = 0 ∧
    (BulkIndexer.flushResult dc (.error e)).counts.benign = 0 ∧
    (BulkIndexer.flushResult dc (.error e)).counts.failed = 0 ∧
    (BulkIndexer.flushResult dc (.error e)).logs = [.flushError e] :=
  ⟨rfl, rfl, rfl, rfl, rfl⟩

/-- C6: a per-item result with status 400 whose error type is a known
benign pattern is classified as the benign condition: it is logged with
the remediation hint, and a flush containing it alone counts it neither
as failed nor as indexed but as benign. -/
theorem benign_item_not_failure (t : String) (h : BulkIndexer.knownBenignType t = true) :
    BulkIndexer.classifyItem ⟨400, some t⟩ = .benign ∧
    BulkIndexer.itemLog ⟨400, some t⟩ = some (.itemError 400 true) ∧
    (BulkIndexer.flushResult 1 (.ok [⟨400, some t⟩])).counts =
      { indexed := 0, retried := 0, benign := 1, failed := 0 } := by
  have hc : BulkIndexer.classifyItem ⟨400, some t⟩ = .benign := by
    simp [BulkIndexer.classifyItem, BulkIndexer.benignError, h]
  refine ⟨hc, ?_, ?_⟩
  · simp [BulkIndexer.itemLog, hc]
  · show BulkIndexer.classifyCounts _ = _
    rw [BulkIndexer.classifyCounts_def]
    simp [List.countP_cons, hc]

/-- Witness for C6 at the version-conflict error type of the flush-error
test. -/
theorem benign_item_not_failure_witness :
    BulkIndexer.classifyItem ⟨400, some "version_conflict_engine_exception"⟩ = .benign ∧
    BulkIndexer.itemLog ⟨400, some "version_conflict_engine_exception"⟩ =
      some (.itemError 400 true) ∧
    (BulkIndexer.flushResult 1
      (.ok [⟨400, some "version_conflict_engine_exception"⟩])).counts =
      { indexed := 0, retried := 0, benign := 1, failed := 0 } :=
  benign_item_not_failure "version_conflict_engine_exception" (by decide)

/-- C7: once shutdown has begun, every `Session.Add` call fails with the
`Closed` condition and returns the state unchanged — no bytes appended,
no accounting modified. -/
theorem add_after_close_rejected (maxBytes : Nat) (s : BulkIndexer.IndexerState)
    (d : BulkIndexer.Doc) (h : s.closed = true) :
    s.add maxBytes d = (some .closed, s) := by
  simp [BulkIndexer.IndexerState.add, h]

/-- Witness for C7: adding to a freshly closed indexer. -/
theorem add_after_close_rejected_witness :
    (BulkIndexer.initIndexer.close).add 10 ⟨"foo", "bar"⟩ =
      (some .closed, BulkIndexer.initIndexer.close) :=
  add_after_close_rejected 10 BulkIndexer.initIndexer.close ⟨"foo", "bar"⟩ rfl

/-- C4: on an open indexer, `Add` never rejects a document for size; as
soon as the buffer size reaches or crosses `maxBytes` the whole buffer
(the new document included) is flushed and the buffer size returns to 0
before any further append, while below the threshold the document just
stays buffered.  Taking `s.buffer = []` with `maxBytes ≤ d.bytes` gives
the oversized-single-document edge case: appended, then immediately
flushed as a batch of one. -/
theorem size_triggered_flush (maxBytes : Nat) (s : BulkIndexer.IndexerState)
    (d : BulkIndexer.Doc) (hopen : s.closed = false) :
    (s.add maxBytes d).1 = none ∧
    (maxBytes ≤ BulkIndexer.bufBytes (s.buffer ++ [d]) →
      (s.add maxBytes d).2.flushed = s.flushed ++ [s.buffer ++ [d]] ∧
      BulkIndexer.bufBytes (s.add maxBytes d).2.buffer = 0) ∧
    (BulkIndexer.bufBytes (s.buffer ++ [d]) < maxBytes →
      (s.add maxBytes d).2.buffer = s.buffer ++ [d] ∧
      (s.add maxBytes d).2.flushed = s.flushed) := by
  have hstep : s.add maxBytes d =
      (if maxBytes ≤ BulkIndexer.bufBytes (s.buffer ++ [d]) then
        (none, { s with buffer := [], flushed := s.flushed ++ [s.buffer ++ [d]] })
      else (none, { s with buffer := s.buffer ++ [d] })) := by
    simp [BulkIndexer.IndexerState.add, hopen]
  by_cases hc : maxBytes ≤ BulkIndexer.bufBytes (s.buffer ++ [d])
  · rw [hstep, if_pos hc]
    exact ⟨rfl, fun _ => ⟨rfl, rfl⟩, fun hlt => absurd hc (Nat.not_le.mpr hlt)⟩
  · rw [hstep, if_neg hc]
    exact ⟨rfl, fun hge => absurd hge hc, fun _ => ⟨rfl, rfl⟩⟩

/-- Witness for C4: a single six-byte document against a three-byte
threshold is accepted and immediately flushed as a batch of one. -/
theorem size_triggered_flush_witness :
    (BulkIndexer.initIndexer.add 3 ⟨"foo", "bar"⟩).1 = none ∧
    (BulkIndexer.initIndexer.add 3 ⟨"foo", "bar"⟩).2.flushed = [[⟨"foo", "bar"⟩]] ∧
    BulkIndexer.bufBytes (BulkIndexer.initIndexer.add 3 ⟨"foo", "bar"⟩).2.buffer = 0 := by
  have h := size_triggered_flush 3 BulkIndexer.initIndexer ⟨"foo", "bar"⟩ rfl
  have h2 := h.2.1 (by decide)
  exact ⟨h.1, by simpa using h2.1, h2.2⟩

/-- C8: with the interval timer running and the size threshold not
reached, a single document appended to a fresh indexer is flushed by the
very next interval tick, with no further caller action. -/
theorem interval_tick_flush (maxBytes : Nat) (d : BulkIndexer.Doc)
    (hsize : BulkIndexer.bufBytes [d] < maxBytes) :
    ((BulkIndexer.initIndexer.add maxBytes d).2.tick).flushed = [[d]] ∧
    ((BulkIndexer.initIndexer.add maxBytes d).2.tick).buffer = [] := by
  have hadd : (BulkIndexer.initIndexer.add maxBytes d).2 =
      { buffer := [d], flushed := [], timerActive := true, closed := false } := by
    simp [BulkIndexer.IndexerState.add, BulkIndexer.initIndexer, Nat.not_le.mpr hsize]
  rw [hadd]
  simp [BulkIndexer.IndexerState.tick]

/-- Witness for C8: one six-byte document against a large threshold. -/
theorem interval_tick_flush_witness :
    ((BulkIndexer.initIndexer.add 1000 ⟨"foo", "bar"⟩).2.tick).flushed = [[⟨"foo", "bar"⟩]] ∧
    ((BulkIndexer.initIndexer.add 1000 ⟨"foo", "bar"⟩).2.tick).buffer = [] :=
  interval_tick_flush 1000 ⟨"foo", "bar"⟩ (by decide)

/-- C3: on any worker state with a non-empty buffer, `Close` stops the
interval timer, marks shutdown, submits exactly the remaining buffer as
one final flush (even below every threshold) and leaves the buffer
empty. -/
theorem close_drains_buffer (s : BulkIndexer.IndexerState) (hne : s.buffer ≠ []) :
    s.close.timerActive = false ∧
    s.close.closed = true ∧
    s.close.flushed = s.flushed ++ [s.buffer] ∧
    s.close.buffer = [] := by
  simp [BulkIndexer.IndexerState.close, hne]

/-- Witness for C3: a single document appended below all thresholds is
submitted by `Close`. -/
theorem close_drains_buffer_witness :
    ((BulkIndexer.initIndexer.add 1000 ⟨"foo", "bar"⟩).2.close).timerActive = false ∧
    ((BulkIndexer.initIndexer.add 1000 ⟨"foo", "bar"⟩).2.close).closed = true ∧
    ((BulkIndexer.initIndexer.add 1000 ⟨"foo", "bar"⟩).2.close).flushed = [[⟨"foo", "bar"⟩]] ∧
    ((BulkIndexer.initIndexer.add 1000 ⟨"foo", "bar"⟩).2.close).buffer = [] := by
  have h := close_drains_buffer (BulkIndexer.initIndexer.add 1000 ⟨"foo", "bar"⟩).2
    (by decide)
  exact ⟨h.1, h.2.1, by simpa using h.2.2.1, h.2.2.2⟩

namespace BulkIndexer

/-- Stepping one `add` on an open indexer preserves openness and the
partition invariant: submitted batches flattened, followed by the
in-buffer remainder, is exactly everything appended so far. -/
theorem add_partition (maxBytes : Nat) (s : IndexerState) (d : Doc)
    (hopen : s.closed = false) :
    (s.add maxBytes d).2.closed = false ∧
    (s.add maxBytes d).2.flushed.flatten ++ (s.add maxBytes d).2.buffer =
      s.flushed.flatten ++ s.buffer ++ [d] := by
  have hstep : s.add maxBytes d =
      (if maxBytes ≤ bufBytes (s.buffer ++ [d]) then
        (none, { s with buffer := [], flushed := s.flushed ++ [s.buffer ++ [d]] })
      else (none, { s with buffer := s.buffer ++ [d] })) := by
    simp [IndexerState.add, hopen]
  by_cases hc : maxBytes ≤ bufBytes (s.buffer ++ [d])
  · rw [hstep, if_pos hc]
    simp [List.append_assoc, hopen]
  · rw [hstep, if_neg hc]
    simp [List.append_assoc, hopen]

/-- Running a sequence of appends on an open indexer keeps it open and
maintains the partition invariant over the whole sequence. -/
theorem runAdds_partition (maxBytes : Nat) (ds : List Doc) (s : IndexerState)
    (hopen : s.closed = false) :
    (runAdds maxBytes s ds).closed = false ∧
    (runAdds maxBytes s ds).flushed.flatten ++ (runAdds maxBytes s ds).buffer =
      s.flushed.flatten ++ s.buffer ++ ds := by
  induction ds generalizing s with
  | nil => simpa using ⟨hopen, rfl⟩
  | cons d ds ih =>
    have hstep := add_partition maxBytes s d hopen
    have := ih (s.add maxBytes d).2 hstep.1
    refine ⟨this.1, ?_⟩
    rw [runAdds, this.2, hstep.2]
    simp

/-- Each classified item falls in exactly one of the four outcome
buckets, so the four counts sum to the response length. -/
theorem classifyCounts_total (items : List ItemResult) :
    (classifyCounts items).indexed + (classifyCounts items).retried +
      (classifyCounts items).benign + (classifyCounts items).failed =
      items.length := by
  have key : ∀ l : List ItemResult,
      l.countP (fun r => classifyItem r = .success) +
        l.countP (fun r => classifyItem r = .retry) +
        l.countP (fun r => classifyItem r = .benign) +
        l.countP (fun r => classifyItem r = .permanentFailure) = l.length := by
    intro l
    induction l with
    | nil => rfl
    | cons r l ih =>
      simp only [List.countP_cons, List.length_cons]
      rcases h : classifyItem r <;> simp [h] <;> omega
  simpa [classifyCounts] using key items

end BulkIndexer

/-- C2: every document accepted by `Add` lands in exactly one submitted
batch — flattening the batches submitted over a whole run of appends
followed by `Close` reproduces the appended sequence exactly, with no
duplication, no drop, and an empty buffer at the end (documents still
below threshold are drained by `Close`); and since every per-item result
of a response is classified into exactly one bucket, a response carrying
one item per appended document yields indexed + retried + benign +
failed equal to the number appended (benign counted separately from the
failure counters). -/
theorem appended_docs_flushed_exactly_once (maxBytes : Nat) (ds : List BulkIndexer.Doc) :
    ((BulkIndexer.runAdds maxBytes BulkIndexer.initIndexer ds).close).flushed.flatten = ds ∧
    ((BulkIndexer.runAdds maxBytes BulkIndexer.initIndexer ds).close).buffer = [] ∧
    ∀ items : List BulkIndexer.ItemResult, items.length = ds.length →
      (BulkIndexer.classifyCounts items).indexed +
        (BulkIndexer.classifyCounts items).retried +
        (BulkIndexer.classifyCounts items).benign +
        (BulkIndexer.classifyCounts items).failed = ds.length := by
  have hrun := BulkIndexer.runAdds_partition maxBytes ds BulkIndexer.initIndexer rfl
  set t := BulkIndexer.runAdds maxBytes BulkIndexer.initIndexer ds with ht
  have hpart : t.flushed.flatten ++ t.buffer = ds := by
    simpa [BulkIndexer.initIndexer] using hrun.2
  have hclose : t.close.flushed.flatten = ds ∧ t.close.buffer = [] := by
    by_cases hb : t.buffer = []
    · rw [BulkIndexer.IndexerState.close, if_pos hb]
      constructor
      · simpa [hb] using hpart
      · simpa using hb
    · rw [BulkIndexer.IndexerState.close, if_neg hb]
      constructor
      · simpa [List.append_assoc] using hpart
      · rfl
  refine ⟨hclose.1, hclose.2, fun items hlen => ?_⟩
  rw [BulkIndexer.classifyCounts_total items, hlen]

/-- Witness for C2: two documents appended below the threshold are both
flushed exactly once by `Close`, and a two-item response classifies into
buckets summing to two. -/
theorem appended_docs_flushed_exactly_once_witness :
    ((BulkIndexer.runAdds 100 BulkIndexer.initIndexer
        [⟨"a", "x"⟩, ⟨"b", "y"⟩]).close).flushed.flatten = [⟨"a", "x"⟩, ⟨"b", "y"⟩] ∧
    ((BulkIndexer.runAdds 100 BulkIndexer.initIndexer
        [⟨"a", "x"⟩, ⟨"b", "y"⟩]).close).buffer = [] ∧
    (BulkIndexer.classifyCounts [⟨201, none⟩, ⟨500, none⟩]).indexed +
      (BulkIndexer.classifyCounts [⟨201, none⟩, ⟨500, none⟩]).retried +
      (BulkIndexer.classifyCounts [⟨201, none⟩, ⟨500, none⟩]).benign +
      (BulkIndexer.classifyCounts [⟨201, none⟩, ⟨500, none⟩]).failed = 2 := by
  have h := appended_docs_flushed_exactly_once 100 [⟨"a", "x"⟩, ⟨"b", "y"⟩]
  exact ⟨h.1, h.2.1, h.2.2 [⟨201, none⟩, ⟨500, none⟩] rfl⟩

namespace SolarwindsApmSettings

end SolarwindsApmSettings

namespace SolarwindsApmSettings

end SolarwindsApmSettings

